import Mathlib

/-!
# Verification of the MultiQC report-parsing plugins

Shallow embedding of three source files of the repository:

* `multiqc/modules/humid/humid.py` — the HUMID module: a line-oriented
  `field: value` stats parser, derived-statistics computation with an
  assertion, and the per-module aggregation pipeline;
* `multiqc/modules/cellranger/count.py` — the Cellranger count module: a
  JSON-carrying HTML report parser, metric extraction through rename
  tables, warning extraction, plot extraction, and aggregation;
* `multiqc/plots/beeswarm.py` — the beeswarm plot helper.

Python dictionaries are embedded as insertion-ordered association lists
(`Dict`), Python exceptions as an `Except PyErr` monad, Python `int` as
`Int`.  Helper functions whose source is not part of the repository
snapshot (`update_dict`, `set_hidden_cols`, `transform_data` from
`utils_functions.py`, `ignore_samples` and the `datatable` object of the
host framework) are modelled from the specification, each marked in its
doc comment.
-/

set_option autoImplicit false

namespace MultiQC

/-! ## Python dictionaries as insertion-ordered association lists -/

/-- A Python `dict` with string keys: an association list in insertion
order, with at most one binding per key. -/
abbrev Dict (V : Type) := List (String × V)

/-- `d[k]` lookup: first (unique) binding of `k`. -/
def dget? {V : Type} : Dict V → String → Option V
  | [], _ => none
  | (k, v) :: rest, key => if k = key then some v else dget? rest key

/-- `d[k] = val` assignment: Python dicts update an existing key in place
and append a new key at the end. -/
def dinsert {V : Type} : Dict V → String → V → Dict V
  | [], key, val => [(key, val)]
  | (k, v) :: rest, key, val =>
    if k = key then (k, val) :: rest else (k, v) :: dinsert rest key val

/-- `k in d` membership test. -/
def dmem {V : Type} (d : Dict V) (key : String) : Bool :=
  (dget? d key).isSome

@[simp] theorem dget?_nil {V : Type} (key : String) : dget? ([] : Dict V) key = none := rfl

@[simp] theorem dget?_cons {V : Type} (k key : String) (v : V) (rest : Dict V) :
    dget? ((k, v) :: rest) key = if k = key then some v else dget? rest key := rfl

@[simp] theorem dget?_dinsert_same {V : Type} (d : Dict V) (key : String) (val : V) :
    dget? (dinsert d key val) key = some val := by
  induction d with
  | nil => simp [dinsert]
  | cons kv rest ih =>
    obtain ⟨k, v⟩ := kv
    by_cases h : k = key
    · simp [dinsert, h]
    · simp [dinsert, h, ih]

theorem dget?_dinsert_ne {V : Type} (d : Dict V) (key key' : String) (val : V)
    (h : key ≠ key') : dget? (dinsert d key val) key' = dget? d key' := by
  induction d with
  | nil => simp [dinsert, h]
  | cons kv rest ih =>
    obtain ⟨k, v⟩ := kv
    by_cases hk : k = key
    · subst hk; simp [dinsert, h]
    · simp only [dinsert, if_neg hk, dget?_cons]
      by_cases hk' : k = key'
      · simp [hk']
      · simp [hk', ih]

/-! ## String primitives

Re-implemented structurally over `List Char` so that concrete inputs
evaluate inside the kernel (`decide`/`rfl`). -/

/-- The characters Python `str.strip()` removes. -/
def pyWhitespace (c : Char) : Bool :=
  c = ' ' || c = '\t' || c = '\n' || c = '\r' || c = '\x0b' || c = '\x0c'

/-- Python `str.strip()` on a character list. -/
def stripChars (cs : List Char) : List Char :=
  ((cs.dropWhile pyWhitespace).reverse.dropWhile pyWhitespace).reverse

/-- Python `s.split(': ')`: split on each non-overlapping occurrence of
the two-character separator `': '`, scanning left to right.  `acc` holds
the reversed characters of the token being built. -/
def splitColonSpace : List Char → List Char → List (List Char)
  | [], acc => [acc.reverse]
  | [c], acc => [(c :: acc).reverse]
  | c1 :: c2 :: rest, acc =>
    if c1 = ':' ∧ c2 = ' ' then acc.reverse :: splitColonSpace rest []
    else splitColonSpace (c2 :: rest) (c1 :: acc)

/-- Decimal digits to a natural number; `none` unless the list is a
non-empty string of digits. -/
def digitsNat? (cs : List Char) : Option Nat :=
  if cs ≠ [] ∧ cs.all Char.isDigit then
    some (cs.foldl (fun n c => 10 * n + (c.toNat - 48)) 0)
  else none

/-! ## Python exceptions -/

/-- The Python exceptions the embedded code can raise.  `userWarning` is
the host framework's "module found no data" signal. -/
inductive PyErr where
  | keyError (k : String)
  | valueError
  | typeError
  | indexError
  | nameError (n : String)
  | assertionError
  | userWarning
  deriving DecidableEq, Repr

/-- `d[k]` on a Python dict: `KeyError` when the key is absent. -/
def keyget {V : Type} (d : Dict V) (k : String) : Except PyErr V :=
  match dget? d k with
  | some v => .ok v
  | none => .error (.keyError k)

@[simp] theorem keyget_of_dget? {V : Type} (d : Dict V) (k : String) (v : V)
    (h : dget? d k = some v) : keyget d k = .ok v := by
  simp [keyget, h]

@[simp] theorem keyget_of_none {V : Type} (d : Dict V) (k : String)
    (h : dget? d k = none) : keyget d k = .error (.keyError k) := by
  simp [keyget, h]

@[simp] theorem ok_bind {ε α β : Type} (a : α) (f : α → Except ε β) :
    Except.bind (Except.ok a) f = f a := rfl

@[simp] theorem error_bind {ε α β : Type} (e : ε) (f : α → Except ε β) :
    Except.bind (Except.error e) f = Except.error e := rfl

instance {ε α : Type} [DecidableEq ε] [DecidableEq α] : DecidableEq (Except ε α) := fun x y =>
  match x, y with
  | .ok a, .ok b =>
    if h : a = b then .isTrue (by rw [h]) else .isFalse (by simp [h])
  | .error e, .error e' =>
    if h : e = e' then .isTrue (by rw [h]) else .isFalse (by simp [h])
  | .ok _, .error _ => .isFalse (by simp)
  | .error _, .ok _ => .isFalse (by simp)

/-! ## HUMID: `multiqc/modules/humid/humid.py` -/

/-- Python `int(s)`: optional surrounding whitespace, optional sign, a
non-empty digit string; `ValueError` (here `none`) otherwise. -/
def pyInt? (cs : List Char) : Option Int :=
  match stripChars cs with
  | '-' :: rest => (digitsNat? rest).map (fun n => -(n : Int))
  | '+' :: rest => (digitsNat? rest).map (fun n => (n : Int))
  | t => (digitsNat? t).map (fun n => (n : Int))

/-- One line of a HUMID stats file:
`field, value = line.strip().split(': ')` followed by `int(value)`.
Unpacking fails (`ValueError`) unless the split has exactly two parts. -/
def parseLine (line : String) : Except PyErr (String × Int) :=
  match splitColonSpace (stripChars line.data) [] with
  | [field, value] =>
    match pyInt? value with
    | some n => .ok (String.mk field, n)
    | none => .error .valueError
  | _ => .error .valueError

/-- `process_stats` of `humid.py`: computes
`stats['filtered'] = stats['total'] - stats['usable']`,
`stats['duplicates'] = stats['total'] - stats['clusters'] - stats['filtered']`,
then asserts `duplicates + clusters + filtered == total`. -/
def process_stats (stats : Dict Int) : Except PyErr (Dict Int) := do
  let total ← keyget stats "total"
  let usable ← keyget stats "usable"
  let stats := dinsert stats "filtered" (total - usable)
  let total2 ← keyget stats "total"
  let clusters ← keyget stats "clusters"
  let filtered ← keyget stats "filtered"
  let stats := dinsert stats "duplicates" (total2 - clusters - filtered)
  let dup ← keyget stats "duplicates"
  let clusters2 ← keyget stats "clusters"
  let filtered2 ← keyget stats "filtered"
  let total3 ← keyget stats "total"
  if dup + clusters2 + filtered2 = total3 then pure stats else .error .assertionError

/-- `parse_stat_file` of `humid.py`: each line contributes one
`field: int` binding, then `process_stats` derives the extra entries. -/
def parse_stat_file (lines : List String) : Except PyErr (Dict Int) := do
  let d ← lines.foldlM (fun d line => do
    let fv ← parseLine line
    pure (dinsert d fv.1 fv.2)) ([] : Dict Int)
  process_stats d

/-- One HUMID input file: the `root` directory used as the sample name,
and the lines of its `stats.dat`. -/
structure HumidFile where
  root : String
  lines : List String

/-- `MultiqcModule.parse_stat_files`: parse each found file and store the
record under the file root; later files with the same root overwrite
earlier ones, and nothing is logged while doing so (the returned list is
the log messages emitted by the loop). -/
def parse_stat_files (files : List HumidFile) :
    Except PyErr (Dict (Dict Int) × List String) :=
  files.foldlM (fun st f => do
    let data ← parse_stat_file f.lines
    pure (dinsert st.1 f.root data, st.2)) (([] : Dict (Dict Int)), ([] : List String))

/-- Modelled from the spec: the host framework's
`BaseMultiqcModule.ignore_samples` (not part of the snapshot) applies the
configured sample-exclusion filter, dropping every entry whose sample
name the filter excludes. -/
def ignore_samples {V : Type} (excluded : String → Bool) (d : Dict V) : Dict V :=
  d.filter (fun kv => !excluded kv.1)

/-- A report section handed to the host framework. -/
structure ModSection where
  name : String
  anchor : String
  deriving DecidableEq, Repr

/-- What the HUMID module hands to the host when it succeeds. -/
structure HumidOutput where
  dataFile : Dict (Dict Int)
  generalStats : Dict (Dict Int)
  sections : List ModSection
  log : List String
  deriving DecidableEq, Repr

/-- `MultiqcModule.__init__` of `humid.py`: parse all stat files, apply
the sample-exclusion filter, raise `UserWarning` when no samples remain,
otherwise emit the data file, the general statistics and the one HUMID
section. -/
def humid_module (files : List HumidFile) (excluded : String → Bool) :
    Except PyErr HumidOutput := do
  let parsed ← parse_stat_files files
  let humid := ignore_samples excluded parsed.1
  if humid.isEmpty then .error .userWarning
  else do
    let gs ← humid.mapM (fun kv => do
      let c ← keyget kv.2 "clusters"
      pure (kv.1, ([("uniq", c)] : Dict Int)))
    pure { dataFile := humid
           generalStats := gs
           sections := [{ name := "HUMID", anchor := "humid" }]
           log := parsed.2 }

/-! ## Cellranger count: `multiqc/modules/cellranger/count.py`

The JSON value carried by the `const data = {...}` line of the HTML
report. -/

inductive Json where
  | null
  | str (s : String)
  | int (n : Int)
  | arr (xs : List Json)
  | obj (kvs : List (String × Json))

/-- Python `j[k]` on a parsed JSON value: `KeyError` when the key is
absent from a dict, `TypeError` when `j` is not a dict. -/
def Json.get : Json → String → Except PyErr Json
  | .obj kvs, k =>
    match dget? kvs k with
    | some v => .ok v
    | none => .error (.keyError k)
  | _, _ => .error .typeError

/-- Python `j.get(k, default)` on a parsed JSON dict. -/
def Json.getD : Json → String → Json → Except PyErr Json
  | .obj kvs, k, dflt => .ok ((dget? kvs k).getD dflt)
  | _, _, _ => .error .typeError

/-- Python `j[n]` on a parsed JSON list. -/
def Json.idx : Json → Nat → Except PyErr Json
  | .arr xs, n =>
    match xs.get? n with
    | some v => .ok v
    | none => .error .indexError
  | _, _ => .error .typeError

/-- Iterating a JSON value as a list (`TypeError` otherwise). -/
def Json.asArr : Json → Except PyErr (List Json)
  | .arr xs => .ok xs
  | _ => .error .typeError

/-- A JSON value used where a string is required. -/
def Json.asStr : Json → Except PyErr String
  | .str s => .ok s
  | _ => .error .typeError

/-- `col, value = row` unpacking of one table row: `ValueError` unless
the row is a two-element sequence. -/
def Json.asPair : Json → Except PyErr (Json × Json)
  | .arr [a, b] => .ok (a, b)
  | _ => .error .valueError

/-- A `rows` value as a list of `(label, value)` pairs. -/
def getRows (j : Json) : Except PyErr (List (Json × Json)) := do
  let xs ← j.asArr
  xs.mapM Json.asPair

/-- Digit-and-comma strings (e.g. `"1,000"`) convert to numbers; other
values are kept as they are.  Modelled from the spec: the value parsing
of `update_dict` (not in the snapshot) converts "numeric strings ... to
numbers where applicable". -/
def parseVal : Json → Json
  | .str s =>
    match digitsNat? (s.data.filter (fun c => c ≠ ',')) with
    | some n => .int (n : Int)
    | none => .str s
  | v => v

/-- One column-header registry entry: title, description and display
flags (the value-transform hook is kept as a tag). -/
structure HeaderMeta where
  title : String
  description : String := ""
  hidden : Bool := false
  modifyTag : Option String := none
  deriving DecidableEq, Repr

/-- Modelled from the spec: `update_dict` of `utils_functions.py` (not in
the snapshot).  "Given a list of (label, value)-style rows from a report
and a fixed label→key rename table, produce a mapping of renamed keys to
parsed values (numeric strings converted to numbers where applicable)
and update the shared header registry with any newly seen keys (using
the label as display title).  Unknown labels not in the rename table are
ignored.  No side effects beyond the registry update."  The produced
mapping extends the mapping passed in (the call sites thread the
partially built record through successive calls).  `udStep` is the
per-row action; `update_dict` folds it over the rows. -/
def udStep (col_dict : Dict String) (pre : Option String)
    (st : Dict Json × Dict HeaderMeta) (row : Json × Json) :
    Dict Json × Dict HeaderMeta :=
  match row.1 with
  | .str label =>
    match dget? col_dict label with
    | some key =>
      let key := match pre with
        | some p => p ++ " " ++ key
        | none => key
      (dinsert st.1 key (parseVal row.2),
       if dmem st.2 key then st.2 else dinsert st.2 key { title := label })
    | none => st
  | _ => st

/-- See `udStep` for the per-row action. -/
def update_dict (data : Dict Json) (headers : Dict HeaderMeta)
    (rows : List (Json × Json)) (col_dict : Dict String) (pre : Option String) :
    Dict Json × Dict HeaderMeta :=
  rows.foldl (udStep col_dict pre) (data, headers)

/-- Modelled from the spec: `set_hidden_cols` of `utils_functions.py`
(not in the snapshot) marks the given metric columns as hidden in the
header registry; columns not yet registered are skipped. -/
def set_hidden_cols (headers : Dict HeaderMeta) (cols : List String) : Dict HeaderMeta :=
  cols.foldl (fun h c =>
    match dget? h c with
    | some meta => dinsert h c { meta with hidden := true }
    | none => h) headers

/-- Modelled from the spec: `transform_data` of `utils_functions.py`
(not in the snapshot).  "Given a plotting-library-style series object
containing x and y coordinate arrays, produce a mapping from each x
value to its y value (an ordered sequence of (x,y) pairs)." -/
def transform_data (j : Json) : Except PyErr (List (Json × Json)) := do
  let xs ← (← j.get "x").asArr
  let ys ← (← j.get "y").asArr
  pure (xs.zip ys)

/-- The `cells`-table rename table for the general statistics. -/
def colDictCells : Dict String :=
  [("Estimated Number of Cells", "estimated cells"),
   ("Mean Reads per Cell", "avg reads/cell"),
   ("Fraction Reads in Cells", "reads in cells")]

/-- The `sequencing`-table rename table for the general statistics. -/
def colDictSeq : Dict String :=
  [("Number of Reads", "reads"),
   ("Valid Barcodes", "valid bc"),
   ("Q30 Bases in Barcode", "Q30 bc"),
   ("Q30 Bases in UMI", "Q30 UMI"),
   ("Q30 Bases in RNA Read", "Q30 read")]

/-- The rename table for the full per-sample metrics table. -/
def colDictFull : Dict String :=
  [("Number of Reads", "reads"),
   ("Estimated Number of Cells", "estimated cells"),
   ("Mean Reads per Cell", "avg reads/cell"),
   ("Total Genes Detected", "genes detected"),
   ("Median Genes per Cell", "median genes/cell"),
   ("Fraction Reads in Cells", "reads in cells"),
   ("Valid Barcodes", "valid bc"),
   ("Valid UMIs", "valid umi"),
   ("Median UMI Counts per Cell", "median umi/cell"),
   ("Sequencing Saturation", "saturation"),
   ("Q30 Bases in Barcode", "Q30 bc"),
   ("Q30 Bases in UMI", "Q30 UMI"),
   ("Q30 Bases in RNA Read", "Q30 read"),
   ("Reads Mapped to Genome", "reads mapped"),
   ("Reads Mapped Confidently to Genome", "confident reads"),
   ("Reads Mapped Confidently to Transcriptome", "confident transcriptome"),
   ("Reads Mapped Confidently to Exonic Regions", "confident exonic"),
   ("Reads Mapped Confidently to Intronic Regions", "confident intronic"),
   ("Reads Mapped Confidently to Intergenic Regions", "confident intergenic"),
   ("Reads Mapped Antisense to Gene", "reads antisense")]

/-- One chart configuration (axis labels and log-scale flags; the raw
report values are kept unrendered). -/
structure PlotConfig where
  id : String
  titleRaw : Json
  xlab : Json
  ylab : Json
  yLog : Bool
  xLog : Bool

/-- One entry of `plots` in `parse_count_report`: chart configuration,
description and help text. -/
structure PlotSection where
  config : PlotConfig
  description : String
  helptext : Json

/-- One alarm entry of the warnings-table header registry. -/
structure WarnHeader where
  title : String
  description : Json
  bgcolFail : String := "#f06807"

/-- The mutable state of the Cellranger count module
(`self.cellrangercount_*` and the header registries). -/
structure CRState where
  data : Dict (Dict Json)
  general : Dict (Dict Json)
  warnings : Dict (Dict String)
  plotsConf : Option (PlotSection × PlotSection)
  plotsDataBC : Dict (List (Json × Json))
  plotsDataGenes : Dict (List (Json × Json))
  generalHeaders : Dict HeaderMeta
  dataHeaders : Dict HeaderMeta
  warningsHeaders : Dict WarnHeader
  dataSources : List (String × String)
  log : List String

/-- The state set up at the top of `parse_count_html`. -/
def initCRState : CRState where
  data := []
  general := []
  warnings := []
  plotsConf := none
  plotsDataBC := []
  plotsDataGenes := []
  generalHeaders := []
  dataHeaders := []
  warningsHeaders := []
  dataSources := []
  log := []

/-- One line of a Cellranger count HTML report: either ordinary text, or
the `const data = {...}` line carrying the parsed JSON payload. -/
inductive CRLine where
  | text (s : String)
  | constData (j : Json)

/-- One Cellranger count input file. -/
structure CRFile where
  fn : String
  lines : List CRLine

/-- The report-scanning loop of `parse_count_report`: the first
`const data` line wins; if no such line exists, `mydict` is never
assigned and the later use raises `NameError`. -/
def findConstData : List CRLine → Except PyErr Json
  | [] => .error (.nameError "mydict")
  | .constData j :: _ => .ok j
  | .text _ :: rest => findConstData rest

/-- The duplicate-sample log message of `parse_count_report`. -/
def dupMsg (fn sName : String) : String :=
  "Duplicate sample name found in " ++ fn ++ "! Overwriting: " ++ sName

/-- The warning extraction of `parse_count_report`:
`alarms_list = mydict['alarms'].get('alarms', [])`, then `id` (the table
key) and `title` are read from every alarm. -/
def extract_alarms (alarmsObj : Json) : Except PyErr (List (String × Json)) := do
  let lst ← (← alarmsObj.getD "alarms" (.arr [])).asArr
  lst.mapM (fun alarm => do
    let idS ← (← alarm.get "id").asStr
    let titleJ ← alarm.get "title"
    pure (idS, titleJ))

/-- Everything `parse_count_report` reads out of one report file, in the
order the source reads it (the rename-table applications themselves are
infallible and happen in `store_count`). -/
structure CRExtract where
  sName : String
  cellsRows : List (Json × Json)
  seqRows : List (Json × Json)
  mapRows : List (Json × Json)
  alarms : List (String × Json)
  plots : PlotSection × PlotSection
  bcData : List (Json × Json)
  genesData : List (Json × Json)

/-- The fallible part of `CellRangerCountMixin.parse_count_report`: find
the `const data` payload, take its `summary`, read the sample id, the
three sub-tables, the alarms, the plot help/layout entries and the plot
series.  Any missing key aborts with the corresponding exception. -/
def extract_count (f : CRFile) : Except PyErr CRExtract := do
  let raw ← findConstData f.lines
  let mydict ← raw.get "summary"
  let sName ← (← (← mydict.get "sample").get "id").asStr
  let summaryTab ← mydict.get "summary_tab"
  let cells ← summaryTab.get "cells"
  let cellsRows ← getRows (← (← cells.get "table").get "rows")
  let seqRows ← getRows (← (← (← summaryTab.get "sequencing").get "table").get "rows")
  let mapRows ← getRows (← (← (← summaryTab.get "mapping").get "table").get "rows")
  let alarms ← extract_alarms (← mydict.get "alarms")
  let helpRows ← (← (← cells.get "help").get "data").asArr
  let helpDict ← helpRows.foldlM (fun d x => do
    let k ← (← x.idx 0).asStr
    let v ← (← x.idx 1).idx 0
    pure (dinsert d k v)) ([] : Dict Json)
  let knee ← cells.get "barcode_knee_plot"
  let kneeLayout ← knee.get "layout"
  let bcTitle ← kneeLayout.get "title"
  let bcXlab ← (← kneeLayout.get "xaxis").get "title"
  let bcYlab ← (← kneeLayout.get "yaxis").get "title"
  let bcHelp ← keyget helpDict "Barcode Rank Plot"
  let analysisTab ← mydict.get "analysis_tab"
  let mgp ← analysisTab.get "median_gene_plot"
  let mgpHelp ← mgp.get "help"
  let genesTitle ← mgpHelp.get "title"
  let mgpPlot ← mgp.get "plot"
  let mgpLayout ← mgpPlot.get "layout"
  let genesXlab ← (← mgpLayout.get "xaxis").get "title"
  let genesYlab ← (← mgpLayout.get "yaxis").get "title"
  let genesHelp ← mgpHelp.get "helpText"
  let bcData ← transform_data (← (← knee.get "data").idx 0)
  let genesData ← transform_data (← (← mgpPlot.get "data").idx 0)
  pure { sName := sName
         cellsRows := cellsRows
         seqRows := seqRows
         mapRows := mapRows
         alarms := alarms
         plots :=
           ({ config := { id := "mqc_cellranger_count_bc_knee", titleRaw := bcTitle,
                          xlab := bcXlab, ylab := bcYlab, yLog := true, xLog := true }
              description := "Barcode knee plot"
              helptext := bcHelp },
            { config := { id := "mqc_cellranger_count_genesXcell", titleRaw := genesTitle,
                          xlab := genesXlab, ylab := genesYlab, yLog := false, xLog := false }
              description := "Median gene counts per cell"
              helptext := genesHelp })
         bcData := bcData
         genesData := genesData }

/-- The general-statistics record of one report: the `cells` table rows
through the first rename table, then the `sequencing` table rows through
the second, both prefixed `COUNT` (the registry `gh` is threaded
through as at the call sites). -/
def generalRecordOf (gh : Dict HeaderMeta) (ex : CRExtract) : Dict Json × Dict HeaderMeta :=
  let g1 := update_dict [] gh ex.cellsRows colDictCells (some "COUNT")
  update_dict g1.1 g1.2 ex.seqRows colDictSeq (some "COUNT")

/-- The full-table record of one report: as at the call site, the
extraction over `sequencing + cells + mapping` rows with the full rename
table is seeded with the general-statistics record
(`update_dict(data_general_stats, self.count_data_headers, data_rows,
col_dict)`). -/
def dataRecordOf (gh dh : Dict HeaderMeta) (ex : CRExtract) : Dict Json × Dict HeaderMeta :=
  update_dict (generalRecordOf gh ex).1 dh (ex.seqRows ++ ex.cellsRows ++ ex.mapRows)
    colDictFull none

/-- The `warnings[alarm['id']] = "FAIL"` loop of `parse_count_report`. -/
def warningsOf (ex : CRExtract) : Dict String :=
  ex.alarms.foldl (fun w a => dinsert w a.1 "FAIL") ([] : Dict String)

/-- The warnings-table header entries stored for the alarms of one
report (`self.count_warnings_headers[alarm['id']] = {...}`). -/
def warnHeadersOf (ex : CRExtract) (wh : Dict WarnHeader) : Dict WarnHeader :=
  ex.alarms.foldl (fun h a => dinsert h a.1 { title := a.1, description := a.2 }) wh

/-- The storing part of `parse_count_report`: build the two metric
records and the warnings, update the header registries (which happens
whether or not the record is kept), and — when the full record is
non-empty — log a notice if the sample name is already present and store
everything keyed by the sample name. -/
def store_count (st : CRState) (f : CRFile) (ex : CRExtract) : CRState :=
  let general := generalRecordOf st.generalHeaders ex
  let full := dataRecordOf st.generalHeaders st.dataHeaders ex
  let warnings := warningsOf ex
  let wh := warnHeadersOf ex st.warningsHeaders
  let st := { st with generalHeaders := general.2, dataHeaders := full.2,
                      warningsHeaders := wh }
  if full.1.isEmpty then st
  else
    { st with
      log := if dmem st.general ex.sName then st.log ++ [dupMsg f.fn ex.sName] else st.log
      dataSources := st.dataSources ++ [(f.fn, ex.sName)]
      data := dinsert st.data ex.sName full.1
      general := dinsert st.general ex.sName general.1
      warnings := if warnings.isEmpty then st.warnings
                  else dinsert st.warnings ex.sName warnings
      plotsConf := some ex.plots
      plotsDataBC := dinsert st.plotsDataBC ex.sName ex.bcData
      plotsDataGenes := dinsert st.plotsDataGenes ex.sName ex.genesData }

/-- `CellRangerCountMixin.parse_count_report`: extract the metric
records, warnings and plots from one report file and store them in the
module state. -/
def parse_count_report (st : CRState) (f : CRFile) : Except PyErr CRState := do
  let ex ← extract_count f
  pure (store_count st f ex)

/-- What the Cellranger count module hands to the host when it
succeeds. -/
structure CROutput where
  generalStats : Dict (Dict Json)
  generalHeaders : Dict HeaderMeta
  dataFile : Dict (Dict Json)
  sections : List ModSection

/-- `CellRangerCountMixin.parse_count_html`: parse every found report,
apply the sample-exclusion filter, finalise the header registries, raise
`UserWarning` when no sample data remains, otherwise emit the general
statistics, the data file and the report sections (the warnings section
only when warnings were collected). -/
def parse_count_html (files : List CRFile) (excluded : String → Bool) :
    Except PyErr CROutput := do
  let st ← files.foldlM parse_count_report initCRState
  let st := { st with
    data := ignore_samples excluded st.data
    general := ignore_samples excluded st.general
    warnings := ignore_samples excluded st.warnings
    plotsDataBC := ignore_samples excluded st.plotsDataBC
    plotsDataGenes := ignore_samples excluded st.plotsDataGenes }
  let gh := dinsert st.generalHeaders "COUNT reads"
    { title := "COUNT Reads", description := "Number of reads",
      modifyTag := some "read_count_multiplier" }
  let gh := set_hidden_cols gh ["COUNT Q30 bc", "COUNT Q30 UMI", "COUNT Q30 read"]
  let dh := dinsert st.dataHeaders "reads"
    { title := "Reads", description := "Number of reads",
      modifyTag := some "read_count_multiplier" }
  let _dh := set_hidden_cols dh
    ["Q30 bc", "Q30 UMI", "Q30 read",
     "confident transcriptome", "confident intronic", "confident intergenic",
     "reads antisense", "saturation"]
  if st.data.length = 0 then .error .userWarning
  else do
    let _pc ← match st.plotsConf with
      | some p => pure p
      | none => (.error (.keyError "description") : Except PyErr (PlotSection × PlotSection))
    pure { generalStats := st.general
           generalHeaders := gh
           dataFile := st.data
           sections :=
             (if st.warnings.length > 0 then
               [{ name := "Count - Warnings", anchor := "cellranger-count-warnings" }]
              else []) ++
             [{ name := "Count - Summary stats", anchor := "cellranger-count-stats" },
              { name := "Count - BC rank plot", anchor := "cellranger-count-bcrank-plot" },
              { name := "Count - Median genes", anchor := "cellranger-count-genes-plot" }] }

/-! ## Beeswarm: `multiqc/plots/beeswarm.py` -/

/-- One column header as the datatable hands it to `make_plot`: `rid`,
`namespace`, `title`, `description`, `dmax`, `dmin` are always present;
`colour`, `suffix`, `decimalPlaces` and the `modify` value-transform
hook are optional. -/
structure BSHeader where
  rid : String
  nspace : Json
  title : Json
  description : Json
  dmax : Json
  dmin : Json
  colour : Option String := none
  suffix : Option Json := none
  decimalPlaces : Option Json := none
  modify : Option (Json → Json) := none

/-- The datatable object: parallel lists of header groups and data
groups. -/
structure DataTable where
  headers : List (Dict BSHeader)
  data : List (Dict (Dict Json))

/-- Modelled from the spec: `table_object.datatable` of the host
framework (not in the snapshot) packages the list of per-sample data
dicts and the header metadata into the table object handed to the
plotting code. -/
def datatable (data : List (Dict (Dict Json))) (headers : List (Dict BSHeader))
    (pconfig : Dict Json) : DataTable :=
  let _ := pconfig
  { headers := headers, data := data }

/-- The category dict `make_plot` appends for one header. -/
def mkCategory (h : BSHeader) : Json :=
  .obj [("namespace", h.nspace), ("title", h.title), ("description", h.description),
        ("max", h.dmax), ("min", h.dmin),
        ("suffix", h.suffix.getD (.str "")),
        ("decimalPlaces", h.decimalPlaces.getD (.str "2")),
        ("bordercol", .str ("rgb(" ++ h.colour.getD "204,204,204" ++ ")"))]

/-- One sample's step of the inner loop of `make_plot`: a sample whose
record has the metric key contributes its (possibly
`modify`-transformed) value and its name; one lacking the key
contributes to neither list. -/
def cvStep (k : String) (h : BSHeader) (acc : List Json × List String)
    (kv : String × Dict Json) : List Json × List String :=
  match dget? kv.2 k with
  | some val =>
    (acc.1 ++ [match h.modify with
               | some m => m val
               | none => val],
     acc.2 ++ [kv.1])
  | none => acc

/-- The inner loop of `make_plot` for one metric `k` over the samples of
one data group. -/
def collectVals (samps : Dict (Dict Json)) (k : String) (h : BSHeader) :
    List Json × List String :=
  samps.foldl (cvStep k h) ([], [])

/-- The three parallel arrays `make_plot` accumulates. -/
structure BeeswarmPlot where
  categories : List Json
  datasets : List (List Json)
  samples : List (List String)

/-- One header's step of `make_plot`: append the category, then read
`dt.data[idx]` (an out-of-range index raises) and append the collected
values and sample names. -/
def bsStep (ddata : List (Dict (Dict Json))) (idx : Nat)
    (acc : BeeswarmPlot) (kh : String × BSHeader) : Except PyErr BeeswarmPlot := do
  let samps ← match ddata.get? idx with
    | some s => pure s
    | none => (.error .indexError : Except PyErr (Dict (Dict Json)))
  pure { categories := acc.categories ++ [mkCategory kh.2]
         datasets := acc.datasets ++ [(collectVals samps kh.1 kh.2).1]
         samples := acc.samples ++ [(collectVals samps kh.1 kh.2).2] }

/-- The accumulation loop of `make_plot` of `beeswarm.py`: for every
header group (with its index) and every header in it, one category, one
dataset and one sample-name list. -/
def make_plot_arrays (dt : DataTable) : Except PyErr BeeswarmPlot :=
  dt.headers.enum.foldlM (fun acc ihs => ihs.2.foldlM (bsStep dt.data ihs.1) acc)
    { categories := [], datasets := [], samples := [] }

mutual

/-- `json.dumps` of a JSON value. -/
def Json.dump : Json → String
  | .null => "null"
  | .str s => "\x22" ++ s ++ "\x22"
  | .int n => toString n
  | .arr xs => "[" ++ Json.dumpItems xs ++ "]"
  | .obj kvs => "\x7b" ++ Json.dumpFields kvs ++ "\x7d"

/-- Comma-separated list items. -/
def Json.dumpItems : List Json → String
  | [] => ""
  | [x] => Json.dump x
  | x :: y :: rest => Json.dump x ++ ", " ++ Json.dumpItems (y :: rest)

/-- Comma-separated object fields. -/
def Json.dumpFields : List (String × Json) → String
  | [] => ""
  | [(k, v)] => "\x22" ++ k ++ "\x22: " ++ Json.dump v
  | (k, v) :: p :: rest =>
    "\x22" ++ k ++ "\x22: " ++ Json.dump v ++ ", " ++ Json.dumpFields (p :: rest)

end

/-- The fixed HTML/JS template of `make_plot`, filled with the three
arrays. -/
def beeswarmHtml (p : BeeswarmPlot) : String :=
  "<div class=\"hc-plot-wrapper\"><div id=\"general_stats_beeswarm\" class=\"hc-plot not_rendered hc-beeswarm-plot\"><small>loading..</small></div></div>\n    <script type=\"text/javascript\">\n        mqc_plots[\"general_stats_beeswarm\"] = \x7b\n            \"plot_type\": \"beeswarm\",\n            \"samples\": "
  ++ Json.dump (.arr (p.samples.map (fun l => .arr (l.map .str))))
  ++ ",\n            \"datasets\": " ++ Json.dump (.arr (p.datasets.map .arr))
  ++ ",\n            \"categories\": " ++ Json.dump (.arr p.categories)
  ++ "\n        \x7d\n    </script>"

/-- `make_plot` of `beeswarm.py`: the accumulation loop followed by the
HTML rendering. -/
def make_plot (dt : DataTable) : Except PyErr String := do
  let p ← make_plot_arrays dt
  pure (beeswarmHtml p)

/-- The global names defined or imported by `multiqc/plots/beeswarm.py`:
its imports (`json`, `logging`, `os`, `random`, `config`,
`table_object`), `logger`, `letters`, and its two functions `plot` and
`make_plot`.  `make_beeswarm_plot` is not among them. -/
def beeswarmModuleGlobals : List String :=
  ["json", "logging", "os", "random", "config", "table_object", "logger", "letters",
   "plot", "make_plot"]

/-- `plot` of `beeswarm.py`: builds the datatable and then evaluates
`make_beeswarm_plot(dt)`.  The call resolves the name
`make_beeswarm_plot` among the module globals; were it bound (it is
not — the helper is named `make_plot`), the call would produce the plot
HTML, so the `then` branch carries `make_plot`; since it is unbound, the
call raises `NameError`. -/
def beeswarm_plot (data : List (Dict (Dict Json))) (headers : List (Dict BSHeader))
    (pconfig : Dict Json) : Except PyErr String :=
  let dt := datatable data headers pconfig
  if "make_beeswarm_plot" ∈ beeswarmModuleGlobals then make_plot dt
  else .error (.nameError "make_beeswarm_plot")

/-! ## A concrete Cellranger count report used as a witness input -/

/-- A minimal well-formed `const data` payload. -/
def sampleReport : Json :=
  .obj [("summary", .obj [
    ("sample", .obj [("id", .str "sample1")]),
    ("summary_tab", .obj [
      ("cells", .obj [
        ("table", .obj [("rows", .arr [
          .arr [.str "Estimated Number of Cells", .str "1,000"]])]),
        ("help", .obj [("data", .arr [
          .arr [.str "Barcode Rank Plot", .arr [.str "The barcode rank plot"]]])]),
        ("barcode_knee_plot", .obj [
          ("layout", .obj [
            ("title", .str "Barcode Rank"),
            ("xaxis", .obj [("title", .str "Barcodes")]),
            ("yaxis", .obj [("title", .str "UMI counts")])]),
          ("data", .arr [.obj [
            ("x", .arr [.int 1, .int 2, .int 3]),
            ("y", .arr [.int 10, .int 20, .int 30])]])])]),
      ("sequencing", .obj [
        ("table", .obj [("rows", .arr [
          .arr [.str "Number of Reads", .str "5,000"]])])]),
      ("mapping", .obj [
        ("table", .obj [("rows", .arr [
          .arr [.str "Reads Mapped to Genome", .str "95.0%"]])])])]),
    ("alarms", .obj [("alarms", .arr [])]),
    ("analysis_tab", .obj [
      ("median_gene_plot", .obj [
        ("help", .obj [
          ("title", .str "Median Genes"),
          ("helpText", .str "Median genes per cell")]),
        ("plot", .obj [
          ("layout", .obj [
            ("xaxis", .obj [("title", .str "Cells")]),
            ("yaxis", .obj [("title", .str "Genes")])]),
          ("data", .arr [.obj [
            ("x", .arr [.int 1]),
            ("y", .arr [.int 2])]])])])])])]

/-- A report file carrying `sampleReport`. -/
def sampleFile : CRFile :=
  { fn := "web_summary.html", lines := [.text "<html>", .constData sampleReport] }

/-- The value of an `ok` result, with a fallback for `error` (used only
to name concrete evaluation results in witnesses). -/
def okOr {α : Type} (e : Except PyErr α) (d : α) : α :=
  match e with
  | .ok a => a
  | .error _ => d

/-- A placeholder plot section (fallback value only). -/
def emptyPlotSection : PlotSection :=
  { config := { id := "", titleRaw := .null, xlab := .null, ylab := .null,
                yLog := false, xLog := false }
    description := ""
    helptext := .null }

/-- The extraction of `sampleFile`, as a concrete value. -/
def crEx : CRExtract :=
  okOr (extract_count sampleFile)
    { sName := "", cellsRows := [], seqRows := [], mapRows := [], alarms := []
      plots := (emptyPlotSection, emptyPlotSection), bcData := [], genesData := [] }

/-- The module state after parsing `sampleFile` once. -/
def crSt1 : CRState := okOr (parse_count_report initCRState sampleFile) initCRState

/-- The module state after parsing `sampleFile` twice. -/
def crSt2 : CRState := okOr (parse_count_report crSt1 sampleFile) initCRState

/-- A concrete beeswarm column header. -/
def bsHeaderA : BSHeader :=
  { rid := "r1", nspace := .str "ns", title := .str "Metric",
    description := .str "A metric", dmax := .int 100, dmin := .int 0 }

/-- A concrete datatable: one header group with one metric, two samples
of which only the first has the metric. -/
def bsDT : DataTable :=
  { headers := [[("m", bsHeaderA)]]
    data := [[("s1", [("m", .int 5)]), ("s2", [])]] }

/-- Concrete HUMID input files with one shared sample name. -/
def hF1 : HumidFile := { root := "S1", lines := ["total: 30", "usable: 24", "clusters: 12"] }

/-- Second HUMID file with the same root as `hF1`. -/
def hF2 : HumidFile := { root := "S1", lines := ["total: 40", "usable: 30", "clusters: 15"] }

/-! ## Helper lemmas -/

@[simp] theorem pure_ok {ε α : Type} (a : α) : (pure a : Except ε α) = Except.ok a := rfl

theorem dinsert_dinsert_same {V : Type} (d : Dict V) (k : String) (v w : V) :
    dinsert (dinsert d k v) k w = dinsert d k w := by
  induction d with
  | nil => simp [dinsert]
  | cons kv rest ih =>
    obtain ⟨a, b⟩ := kv
    by_cases h : a = k
    · simp [dinsert, h]
    · simp [dinsert, h, ih]

theorem mem_keys_dinsert {V : Type} (d : Dict V) (k x : String) (v : V) :
    x ∈ (dinsert d k v).map Prod.fst ↔ x ∈ d.map Prod.fst ∨ x = k := by
  induction d with
  | nil => simp [dinsert, eq_comm]
  | cons kv rest ih =>
    obtain ⟨a, b⟩ := kv
    by_cases h : a = k
    · subst h
      simp [dinsert]
      tauto
    · simp [dinsert, h, ih]
      tauto

theorem keys_nodup_dinsert {V : Type} (d : Dict V) (k : String) (v : V)
    (h : (d.map Prod.fst).Nodup) : ((dinsert d k v).map Prod.fst).Nodup := by
  induction d with
  | nil => simp [dinsert]
  | cons kv rest ih =>
    obtain ⟨a, b⟩ := kv
    simp only [List.map_cons, List.nodup_cons] at h
    by_cases hak : a = k
    · subst hak
      simpa [dinsert, List.nodup_cons] using h
    · simp only [dinsert, if_neg hak, List.map_cons, List.nodup_cons]
      refine ⟨?_, ih h.2⟩
      rw [mem_keys_dinsert]
      rintro (hx | rfl)
      · exact h.1 hx
      · exact hak rfl

theorem dmem_dinsert_mono {V : Type} (d : Dict V) (k k' : String) (v : V)
    (h : dmem d k = true) : dmem (dinsert d k' v) k = true := by
  by_cases hk : k' = k
  · subst hk; simp [dmem]
  · simpa [dmem, dget?_dinsert_ne _ _ _ _ hk] using h

theorem foldlM_except_invariant {α β : Type} (P : β → Prop)
    (f : β → α → Except PyErr β)
    (hstep : ∀ b a b', P b → f b a = .ok b' → P b') :
    ∀ (l : List α) (init res : β), P init → l.foldlM f init = .ok res → P res := by
  intro l
  induction l with
  | nil =>
    intro init res h heq
    cases heq
    exact h
  | cons a rest ih =>
    intro init res h heq
    have hcons : (a :: rest).foldlM f init = Except.bind (f init a)
        (fun b => rest.foldlM f b) := rfl
    rw [hcons] at heq
    cases hfa : f init a with
    | error e => rw [hfa] at heq; simp at heq
    | ok b => rw [hfa, ok_bind] at heq; exact ih b res (hstep _ _ _ h hfa) heq

theorem foldlM_except_append {α β : Type} (f : β → α → Except PyErr β)
    (l₁ l₂ : List α) (init : β) :
    (l₁ ++ l₂).foldlM f init =
      Except.bind (l₁.foldlM f init) (fun b => l₂.foldlM f b) := by
  induction l₁ generalizing init with
  | nil => simp [List.foldlM]
  | cons a rest ih =>
    have h1 : ((a :: rest) ++ l₂).foldlM f init =
        Except.bind (f init a) (fun b => (rest ++ l₂).foldlM f b) := rfl
    have h2 : (a :: rest).foldlM f init =
        Except.bind (f init a) (fun b => rest.foldlM f b) := rfl
    rw [h1, h2]
    cases f init a with
    | error e => simp
    | ok b => simp [ih]

theorem udStep_fst_indep (cd : Dict String) (p : Option String)
    (d : Dict Json) (h h' : Dict HeaderMeta) (row : Json × Json) :
    (udStep cd p (d, h) row).1 = (udStep cd p (d, h') row).1 := by
  obtain ⟨l, v⟩ := row
  cases l with
  | null => rfl
  | str s =>
    dsimp only [udStep]
    cases hcd : dget? cd s with
    | none => rfl
    | some key => rfl
  | int n => rfl
  | arr xs => rfl
  | obj kvs => rfl

theorem update_dict_fst_indep (cd : Dict String) (p : Option String) :
    ∀ (rows : List (Json × Json)) (d : Dict Json) (h h' : Dict HeaderMeta),
    (update_dict d h rows cd p).1 = (update_dict d h' rows cd p).1 := by
  intro rows
  induction rows with
  | nil => intro d h h'; rfl
  | cons row rest ih =>
    intro d h h'
    calc (update_dict d h (row :: rest) cd p).1
        = (update_dict (udStep cd p (d, h) row).1 (udStep cd p (d, h) row).2
            rest cd p).1 := rfl
      _ = (update_dict (udStep cd p (d, h') row).1 (udStep cd p (d, h) row).2
            rest cd p).1 := by rw [udStep_fst_indep]
      _ = (update_dict (udStep cd p (d, h') row).1 (udStep cd p (d, h') row).2
            rest cd p).1 := ih _ _ _
      _ = (update_dict d h' (row :: rest) cd p).1 := rfl

theorem udStep_fst_dmem (cd : Dict String) (p : Option String)
    (st : Dict Json × Dict HeaderMeta) (row : Json × Json) (k : String)
    (h : dmem st.1 k = true) : dmem (udStep cd p st row).1 k = true := by
  obtain ⟨l, v⟩ := row
  cases l with
  | null => exact h
  | str s =>
    dsimp only [udStep]
    cases hcd : dget? cd s with
    | none => exact h
    | some key => exact dmem_dinsert_mono _ _ _ _ h
  | int n => exact h
  | arr xs => exact h
  | obj kvs => exact h

theorem update_dict_fst_dmem (cd : Dict String) (p : Option String) :
    ∀ (rows : List (Json × Json)) (d : Dict Json) (h : Dict HeaderMeta) (k : String),
    dmem d k = true → dmem (update_dict d h rows cd p).1 k = true := by
  intro rows
  induction rows with
  | nil => intro d h k hk; exact hk
  | cons row rest ih =>
    intro d h k hk
    have : (update_dict d h (row :: rest) cd p) =
        update_dict (udStep cd p (d, h) row).1 (udStep cd p (d, h) row).2 rest cd p := rfl
    rw [this]
    exact ih _ _ _ (udStep_fst_dmem cd p (d, h) row k hk)

theorem generalRecordOf_fst_indep (gh gh' : Dict HeaderMeta) (ex : CRExtract) :
    (generalRecordOf gh ex).1 = (generalRecordOf gh' ex).1 := by
  unfold generalRecordOf
  have h1 : (update_dict [] gh ex.cellsRows colDictCells (some "COUNT")).1 =
      (update_dict [] gh' ex.cellsRows colDictCells (some "COUNT")).1 :=
    update_dict_fst_indep _ _ _ _ _ _
  rw [update_dict_fst_indep colDictSeq (some "COUNT") ex.seqRows _
    (update_dict [] gh ex.cellsRows colDictCells (some "COUNT")).2
    (update_dict [] gh' ex.cellsRows colDictCells (some "COUNT")).2, h1]

theorem dataRecordOf_fst_indep (gh dh gh' dh' : Dict HeaderMeta) (ex : CRExtract) :
    (dataRecordOf gh dh ex).1 = (dataRecordOf gh' dh' ex).1 := by
  unfold dataRecordOf
  rw [update_dict_fst_indep colDictFull none _ _ dh dh',
    generalRecordOf_fst_indep gh gh']

theorem parse_count_report_ok_iff (st : CRState) (f : CRFile) (st' : CRState) :
    parse_count_report st f = .ok st' ↔
    ∃ ex, extract_count f = .ok ex ∧ st' = store_count st f ex := by
  cases hex : extract_count f with
  | ok ex =>
    constructor
    · intro h
      simp only [parse_count_report, hex, bind, ok_bind, pure_ok] at h
      exact ⟨ex, rfl, (Except.ok.inj h).symm⟩
    · rintro ⟨ex', hex', rfl⟩
      cases hex'
      simp [parse_count_report, hex, bind]
  | error e =>
    constructor
    · intro h
      simp only [parse_count_report, hex, bind, error_bind] at h
      cases h
    · rintro ⟨ex', hex', rfl⟩
      cases hex'

theorem store_count_generalHeaders (s : CRState) (f : CRFile) (ex : CRExtract) :
    (store_count s f ex).generalHeaders = (generalRecordOf s.generalHeaders ex).2 := by
  by_cases h : (dataRecordOf s.generalHeaders s.dataHeaders ex).1.isEmpty <;>
    simp [store_count, h]

theorem store_count_dataHeaders (s : CRState) (f : CRFile) (ex : CRExtract) :
    (store_count s f ex).dataHeaders = (dataRecordOf s.generalHeaders s.dataHeaders ex).2 := by
  by_cases h : (dataRecordOf s.generalHeaders s.dataHeaders ex).1.isEmpty <;>
    simp [store_count, h]

theorem store_count_data (s : CRState) (f : CRFile) (ex : CRExtract) :
    (store_count s f ex).data =
      if (dataRecordOf s.generalHeaders s.dataHeaders ex).1.isEmpty then s.data
      else dinsert s.data ex.sName (dataRecordOf s.generalHeaders s.dataHeaders ex).1 := by
  by_cases h : (dataRecordOf s.generalHeaders s.dataHeaders ex).1.isEmpty <;>
    simp [store_count, h]

theorem store_count_general (s : CRState) (f : CRFile) (ex : CRExtract) :
    (store_count s f ex).general =
      if (dataRecordOf s.generalHeaders s.dataHeaders ex).1.isEmpty then s.general
      else dinsert s.general ex.sName (generalRecordOf s.generalHeaders ex).1 := by
  by_cases h : (dataRecordOf s.generalHeaders s.dataHeaders ex).1.isEmpty <;>
    simp [store_count, h]

theorem store_count_warnings (s : CRState) (f : CRFile) (ex : CRExtract) :
    (store_count s f ex).warnings =
      if (dataRecordOf s.generalHeaders s.dataHeaders ex).1.isEmpty then s.warnings
      else if (warningsOf ex).isEmpty then s.warnings
      else dinsert s.warnings ex.sName (warningsOf ex) := by
  by_cases h : (dataRecordOf s.generalHeaders s.dataHeaders ex).1.isEmpty <;>
    simp [store_count, h]

theorem get?_zip_eq {α β : Type} :
    ∀ (xs : List α) (ys : List β) (i : ℕ) (x : α) (y : β),
    xs.get? i = some x → ys.get? i = some y → (xs.zip ys).get? i = some (x, y) := by
  intro xs
  induction xs with
  | nil => intro ys i x y hx; simp at hx
  | cons a t ih =>
    intro ys i x y hx hy
    cases ys with
    | nil => simp at hy
    | cons b u =>
      cases i with
      | zero =>
        simp only [List.get?] at hx hy
        cases hx
        cases hy
        rfl
      | succ n => simpa using ih u n x y (by simpa using hx) (by simpa using hy)

theorem forall₂_get? {α β : Type} {R : α → β → Prop} :
    ∀ {l1 : List α} {l2 : List β}, List.Forall₂ R l1 l2 →
    ∀ (i : ℕ) (a : α) (b : β), l1.get? i = some a → l2.get? i = some b → R a b := by
  intro l1 l2 h
  induction h with
  | nil => intro i a b ha; simp at ha
  | cons hr hrest ih =>
    intro i a b ha hb
    cases i with
    | zero =>
      simp only [List.get?] at ha hb
      cases ha
      cases hb
      exact hr
    | succ n => exact ih n a b (by simpa using ha) (by simpa using hb)

theorem cvStep_len (k : String) (h : BSHeader) (acc : List Json × List String)
    (kv : String × Dict Json) (hacc : acc.1.length = acc.2.length) :
    (cvStep k h acc kv).1.length = (cvStep k h acc kv).2.length := by
  cases hd : dget? kv.2 k <;> simp [cvStep, hd, hacc]

theorem collectVals_len (samps : Dict (Dict Json)) (k : String) (h : BSHeader) :
    (collectVals samps k h).1.length = (collectVals samps k h).2.length := by
  have H : ∀ (l : Dict (Dict Json)) (acc : List Json × List String),
      acc.1.length = acc.2.length →
      (l.foldl (cvStep k h) acc).1.length = (l.foldl (cvStep k h) acc).2.length := by
    intro l
    induction l with
    | nil => intro acc hacc; exact hacc
    | cons kv rest ih =>
      intro acc hacc
      rw [List.foldl_cons]
      exact ih _ (cvStep_len k h acc kv hacc)
  exact H samps ([], []) rfl

/-- The parallel-arrays invariant of `make_plot`. -/
def bsInv (q : BeeswarmPlot) : Prop :=
  q.categories.length = q.datasets.length ∧
  List.Forall₂ (fun (d : List Json) (s : List String) => d.length = s.length)
    q.datasets q.samples

theorem bsStep_inv (ddata : List (Dict (Dict Json))) (idx : Nat)
    (acc : BeeswarmPlot) (kh : String × BSHeader) (acc' : BeeswarmPlot)
    (hP : bsInv acc) (h : bsStep ddata idx acc kh = .ok acc') : bsInv acc' := by
  cases hs : ddata.get? idx with
  | none =>
    simp only [bsStep] at h
    rw [hs] at h
    simp only [bind, error_bind] at h
    cases h
  | some samps =>
    simp only [bsStep] at h
    rw [hs] at h
    simp only [bind, ok_bind, pure_ok] at h
    cases h
    constructor
    · simp [hP.1]
    · exact List.rel_append hP.2
        (List.Forall₂.cons (collectVals_len samps kh.1 kh.2) List.Forall₂.nil)

/-! ## Theorems about the HUMID statistics -/

/-- **C1.** For every stats mapping with integer entries `total`, `usable`
and `clusters`, `process_stats` succeeds (the `assert` branch is
unreachable), the derived entries are `filtered = total - usable` and
`duplicates = usable - clusters`, and
`duplicates + clusters + filtered = total`. -/
theorem process_stats_sum_invariant (stats : Dict Int) (total usable clusters : Int)
    (ht : dget? stats "total" = some total)
    (hu : dget? stats "usable" = some usable)
    (hc : dget? stats "clusters" = some clusters) :
    ∃ d, process_stats stats = .ok d ∧
      dget? d "filtered" = some (total - usable) ∧
      dget? d "duplicates" = some (usable - clusters) ∧
      dget? d "clusters" = some clusters ∧
      dget? d "total" = some total ∧
      (usable - clusters) + clusters + (total - usable) = total := by
  have hft : ("filtered" : String) ≠ "total" := by decide
  have hfc : ("filtered" : String) ≠ "clusters" := by decide
  have hdf : ("duplicates" : String) ≠ "filtered" := by decide
  have hdc : ("duplicates" : String) ≠ "clusters" := by decide
  have hdt : ("duplicates" : String) ≠ "total" := by decide
  set s1 := dinsert stats "filtered" (total - usable) with hs1
  have h1t : dget? s1 "total" = some total := by
    rw [hs1, dget?_dinsert_ne _ _ _ _ hft, ht]
  have h1c : dget? s1 "clusters" = some clusters := by
    rw [hs1, dget?_dinsert_ne _ _ _ _ hfc, hc]
  have h1f : dget? s1 "filtered" = some (total - usable) := by
    rw [hs1, dget?_dinsert_same]
  set s2 := dinsert s1 "duplicates" (total - clusters - (total - usable)) with hs2
  have h2d : dget? s2 "duplicates" = some (total - clusters - (total - usable)) := by
    rw [hs2, dget?_dinsert_same]
  have h2c : dget? s2 "clusters" = some clusters := by
    rw [hs2, dget?_dinsert_ne _ _ _ _ hdc, h1c]
  have h2f : dget? s2 "filtered" = some (total - usable) := by
    rw [hs2, dget?_dinsert_ne _ _ _ _ hdf, h1f]
  have h2t : dget? s2 "total" = some total := by
    rw [hs2, dget?_dinsert_ne _ _ _ _ hdt, h1t]
  have hsum : total - clusters - (total - usable) + clusters + (total - usable) = total := by
    ring
  refine ⟨s2, ?_, h2f, ?_, h2c, h2t, by ring⟩
  · simp only [process_stats, keyget_of_dget? _ _ _ ht, keyget_of_dget? _ _ _ hu,
      ok_bind, bind, ← hs1, keyget_of_dget? _ _ _ h1t, keyget_of_dget? _ _ _ h1c,
      keyget_of_dget? _ _ _ h1f, ← hs2, keyget_of_dget? _ _ _ h2d,
      keyget_of_dget? _ _ _ h2c, keyget_of_dget? _ _ _ h2f, keyget_of_dget? _ _ _ h2t]
    rw [if_pos hsum]
    rfl
  · rw [h2d]
    congr 1
    ring

/-- Witness for C1 at the concrete stats mapping
`total = 100, usable = 80, clusters = 60`. -/
theorem process_stats_sum_invariant_witness :
    ∃ d, process_stats [("total", 100), ("usable", 80), ("clusters", 60)] = .ok d ∧
      dget? d "filtered" = some (100 - 80) ∧
      dget? d "duplicates" = some (80 - 60) ∧
      dget? d "clusters" = some 60 ∧
      dget? d "total" = some 100 ∧
      (80 - 60 : Int) + 60 + (100 - 80) = 100 :=
  process_stats_sum_invariant _ 100 80 60 (by rfl) (by rfl) (by rfl)

/-- **C4.** In both modules, when zero samples remain after parsing and
applying the sample-exclusion filter, the module raises the host's
no-data signal `UserWarning` (and hands no report sections to the
host). -/
theorem no_data_user_warning :
    (∀ (files : List HumidFile) (excluded : String → Bool)
        (pr : Dict (Dict Int) × List String),
      parse_stat_files files = .ok pr →
      (ignore_samples excluded pr.1).isEmpty = true →
      humid_module files excluded = .error .userWarning) ∧
    (∀ (files : List CRFile) (excluded : String → Bool) (st : CRState),
      files.foldlM parse_count_report initCRState = .ok st →
      (ignore_samples excluded st.data).length = 0 →
      parse_count_html files excluded = .error .userWarning) := by
  constructor
  · intro files excluded pr h1 h2
    have h3 : ignore_samples excluded pr.1 = [] := by simpa using h2
    simp [humid_module, bind, h1, h3]
  · intro files excluded st h1 h2
    simp [parse_count_html, bind, h1, h2]

/-- Witness for C4: with no input files at all, both modules raise
`UserWarning`. -/
theorem no_data_user_warning_witness :
    humid_module [] (fun _ => false) = .error .userWarning ∧
    parse_count_html [] (fun _ => false) = .error .userWarning :=
  ⟨no_data_user_warning.1 [] (fun _ => false) ([], []) rfl rfl,
   no_data_user_warning.2 [] (fun _ => false) initCRState rfl rfl⟩

/-- **C2.** Parsing the stats file `total: 100`, `usable: 80`,
`clusters: 60` sets the derived entries to `filtered = 20` and
`duplicates = 20`. -/
theorem parse_stat_file_example :
    parse_stat_file ["total: 100", "usable: 80", "clusters: 60"] =
      .ok [("total", 100), ("usable", 80), ("clusters", 60),
           ("filtered", 20), ("duplicates", 20)] := by
  decide

/-! ## Duplicate sample names (C3) -/

/-- **C3, counterexample.**  Two HUMID stat files with the same root:
the aggregate keeps exactly one record — the later file's — but the
parsing loop logs nothing at all (the log component is `[]`), so no
notice is logged on overwrite, contrary to the claim that both modules
log one. -/
theorem humid_duplicate_overwrites_silently :
    parse_stat_files
      [{ root := "sampleA", lines := ["total: 10", "usable: 8", "clusters: 5"] },
       { root := "sampleA", lines := ["total: 20", "usable: 16", "clusters: 10"] }] =
    .ok ([("sampleA", [("total", 20), ("usable", 16), ("clusters", 10),
                       ("filtered", 4), ("duplicates", 6)])], []) := by
  decide

/-- **C3, amended.**  In both modules a duplicated sample name leaves
exactly one record, the later file's: the HUMID loop keys records by
file root with plain overwrite and logs nothing; the Cellranger count
parser overwrites too but appends a duplicate-sample notice to the log
when the name is already present (and key-uniqueness of the aggregate is
preserved). -/
theorem duplicate_sample_overwrite :
    (∀ (files : List HumidFile) (pr : Dict (Dict Int) × List String),
      parse_stat_files files = .ok pr →
      pr.2 = [] ∧ (pr.1.map Prod.fst).Nodup) ∧
    (∀ (pre : List HumidFile) (f : HumidFile) (pr : Dict (Dict Int) × List String),
      parse_stat_files (pre ++ [f]) = .ok pr →
      ∃ d, parse_stat_file f.lines = .ok d ∧ dget? pr.1 f.root = some d) ∧
    (∀ (st : CRState) (f : CRFile) (st' : CRState) (ex : CRExtract),
      parse_count_report st f = .ok st' → extract_count f = .ok ex →
      (dataRecordOf st.generalHeaders st.dataHeaders ex).1.isEmpty = false →
      dmem st.general ex.sName = true →
      st'.log = st.log ++ [dupMsg f.fn ex.sName] ∧
      dget? st'.data ex.sName =
        some (dataRecordOf st.generalHeaders st.dataHeaders ex).1 ∧
      ((st.data.map Prod.fst).Nodup → (st'.data.map Prod.fst).Nodup)) := by
  refine ⟨?_, ?_, ?_⟩
  · intro files pr h
    refine foldlM_except_invariant
      (fun st => st.2 = [] ∧ (st.1.map Prod.fst).Nodup) _ ?_ files ([], []) pr
      ⟨rfl, by simp⟩ h
    intro b a b' hP heq
    cases hd : parse_stat_file a.lines with
    | error e => simp [bind, hd] at heq
    | ok d =>
      simp only [bind, hd, ok_bind, pure_ok] at heq
      cases heq
      exact ⟨hP.1, keys_nodup_dinsert _ _ _ hP.2⟩
  · intro pre f pr h
    simp only [parse_stat_files] at h
    rw [foldlM_except_append] at h
    cases hmid : List.foldlM
        (fun (st : Dict (Dict Int) × List String) (f : HumidFile) => do
          let data ← parse_stat_file f.lines
          pure (dinsert st.1 f.root data, st.2)) (([] : Dict (Dict Int)), ([] : List String))
        pre with
    | error e => rw [hmid] at h; simp at h
    | ok mid =>
      rw [hmid, ok_bind] at h
      cases hd : parse_stat_file f.lines with
      | error e => simp [List.foldlM, bind, hd] at h
      | ok d =>
        simp only [List.foldlM, bind, hd, ok_bind, pure_ok] at h
        cases h
        exact ⟨d, rfl, dget?_dinsert_same _ _ _⟩
  · intro st f st' ex hp hex hne hdup
    obtain ⟨ex', hex', rfl⟩ := (parse_count_report_ok_iff st f st').mp hp
    rw [hex] at hex'
    cases hex'
    refine ⟨?_, ?_, ?_⟩
    · simp [store_count, hne, hdup]
    · simp [store_count, hne, dget?_dinsert_same]
    · intro hnodup
      simp only [store_count, hne]
      simp only [Bool.false_eq_true, if_false]
      exact keys_nodup_dinsert _ _ _ hnodup

/-- Witness for C3 (amended) at concrete inputs: the two HUMID files
`hF1`/`hF2` sharing root `S1`, and `sampleFile` parsed twice by the
Cellranger count parser. -/
theorem duplicate_sample_overwrite_witness :
    (∃ pr, parse_stat_files [hF1, hF2] = .ok pr ∧
       pr.2 = [] ∧ (pr.1.map Prod.fst).Nodup) ∧
    (∃ d pr, parse_stat_files ([hF1] ++ [hF2]) = .ok pr ∧
       parse_stat_file hF2.lines = .ok d ∧ dget? pr.1 hF2.root = some d) ∧
    (crSt2.log = crSt1.log ++ [dupMsg sampleFile.fn crEx.sName] ∧
     dget? crSt2.data crEx.sName =
       some (dataRecordOf crSt1.generalHeaders crSt1.dataHeaders crEx).1 ∧
     ((crSt1.data.map Prod.fst).Nodup → (crSt2.data.map Prod.fst).Nodup)) := by
  refine ⟨?_, ?_, ?_⟩
  · exact ⟨_, rfl, duplicate_sample_overwrite.1 [hF1, hF2] _ rfl⟩
  · obtain ⟨d, hd, hget⟩ := duplicate_sample_overwrite.2.1 [hF1] hF2 _ rfl
    exact ⟨d, _, rfl, hd, hget⟩
  · exact duplicate_sample_overwrite.2.2 crSt1 sampleFile crSt2 crEx rfl rfl rfl rfl

/-! ## Missing-key handling (C5) -/

/-- **C5, counterexample.**  A HUMID stats file missing only the
`usable` field: the sample identifier (the file root) needs no key at
all, yet parsing aborts with `KeyError('usable')` instead of degrading
gracefully. -/
theorem humid_missing_usable_fatal :
    parse_stat_file ["total: 100", "clusters: 60"] = .error (.keyError "usable") := by
  decide

/-- **C5, amended.**  Missing keys are fatal whenever the parser needs
them, not only for the sample identifier: in HUMID a stats mapping with
`total` but without `usable` aborts with `KeyError('usable')`; the one
sub-section that degrades gracefully is the warnings facet of the
Cellranger count parser, where an alarms object without the inner
`alarms` list yields an empty warning set. -/
theorem missing_key_handling :
    (∀ (d : Dict Int) (t : Int), dget? d "total" = some t →
      dget? d "usable" = none →
      process_stats d = .error (.keyError "usable")) ∧
    (∀ kvs : Dict Json, dget? kvs "alarms" = none →
      extract_alarms (.obj kvs) = .ok []) := by
  constructor
  · intro d t ht hu
    simp [process_stats, bind, keyget_of_dget? _ _ _ ht, keyget_of_none _ _ hu]
  · intro kvs h
    simp only [extract_alarms, Json.getD, h, Option.getD, Json.asArr, bind, ok_bind]
    rfl

/-- Witness for C5 (amended) at concrete inputs. -/
theorem missing_key_handling_witness :
    process_stats [("total", 100), ("clusters", 60)] = .error (.keyError "usable") ∧
    extract_alarms (.obj [("other", .null)]) = .ok [] :=
  ⟨missing_key_handling.1 [("total", 100), ("clusters", 60)] 100 rfl rfl,
   missing_key_handling.2 [("other", .null)] rfl⟩

/-! ## One record per metric category (C6) -/

/-- **C6, counterexample.**  Parsing `sampleFile`, the stored full-table
record contains the key `COUNT estimated cells` — a key the full-table
rename table can never produce (it was contributed by the general-stats
extraction, whose record seeds the full-table `update_dict` call) —
whereas the record extracted with the full-table rename table alone has
no such key. -/
theorem count_full_record_mixes_general_keys :
    ∃ st, parse_count_report initCRState sampleFile = .ok st ∧
      ∃ rec, dget? st.data "sample1" = some rec ∧
        dget? rec "COUNT estimated cells" = some (.int 1000) ∧
        dget? (update_dict [] []
          [(.str "Number of Reads", .str "5,000"),
           (.str "Estimated Number of Cells", .str "1,000"),
           (.str "Reads Mapped to Genome", .str "95.0%")]
          colDictFull none).1 "COUNT estimated cells" = none := by
  refine ⟨crSt1, rfl, _, rfl, rfl, rfl⟩

/-- **C6, amended.**  One record is stored per sample per metric
category: the general-stats record is exactly the extraction of the
`cells` and `sequencing` rows through the two general-stats rename
tables, and the full-table record is the extraction of the
`sequencing + cells + mapping` rows through the full-table rename table
seeded with the general-stats record, so it additionally contains every
general-stats entry. -/
theorem count_records_by_category (st : CRState) (f : CRFile) (st' : CRState)
    (ex : CRExtract)
    (hex : extract_count f = .ok ex)
    (hp : parse_count_report st f = .ok st')
    (hne : (dataRecordOf st.generalHeaders st.dataHeaders ex).1.isEmpty = false) :
    dget? st'.general ex.sName = some (generalRecordOf st.generalHeaders ex).1 ∧
    dget? st'.data ex.sName = some (dataRecordOf st.generalHeaders st.dataHeaders ex).1 ∧
    dataRecordOf st.generalHeaders st.dataHeaders ex =
      update_dict (generalRecordOf st.generalHeaders ex).1 st.dataHeaders
        (ex.seqRows ++ ex.cellsRows ++ ex.mapRows) colDictFull none ∧
    (∀ k, dmem (generalRecordOf st.generalHeaders ex).1 k = true →
      dmem (dataRecordOf st.generalHeaders st.dataHeaders ex).1 k = true) := by
  obtain ⟨ex', hex', rfl⟩ := (parse_count_report_ok_iff st f st').mp hp
  rw [hex] at hex'
  cases hex'
  refine ⟨?_, ?_, rfl, ?_⟩
  · rw [store_count_general, if_neg (by simp [hne])]
    exact dget?_dinsert_same _ _ _
  · rw [store_count_data, if_neg (by simp [hne])]
    exact dget?_dinsert_same _ _ _
  · intro k hk
    exact update_dict_fst_dmem colDictFull none _ _ _ k hk

/-- Witness for C6 (amended) at `sampleFile`. -/
theorem count_records_by_category_witness :
    dget? crSt1.general crEx.sName =
      some (generalRecordOf initCRState.generalHeaders crEx).1 ∧
    dget? crSt1.data crEx.sName =
      some (dataRecordOf initCRState.generalHeaders initCRState.dataHeaders crEx).1 ∧
    dataRecordOf initCRState.generalHeaders initCRState.dataHeaders crEx =
      update_dict (generalRecordOf initCRState.generalHeaders crEx).1
        initCRState.dataHeaders (crEx.seqRows ++ crEx.cellsRows ++ crEx.mapRows)
        colDictFull none ∧
    (∀ k, dmem (generalRecordOf initCRState.generalHeaders crEx).1 k = true →
      dmem (dataRecordOf initCRState.generalHeaders initCRState.dataHeaders crEx).1 k
        = true) :=
  count_records_by_category initCRState sampleFile crSt1 crEx rfl rfl rfl

/-! ## Idempotent, deterministic parsing (C7) -/

/-- **C7.**  Parsing the same file content twice yields identical metric
records: a HUMID stats file processed twice leaves the same per-sample
mapping as processed once, and a Cellranger count report re-parsed from
the state its first parse produced leaves the data, general-stats and
warnings mappings unchanged (the records depend only on the file
content, not on the module state). -/
theorem parse_idempotent :
    (∀ (f : HumidFile) (pr1 pr2 : Dict (Dict Int) × List String),
      parse_stat_files [f] = .ok pr1 → parse_stat_files [f, f] = .ok pr2 →
      pr2.1 = pr1.1) ∧
    (∀ (st : CRState) (f : CRFile) (st1 st2 : CRState),
      parse_count_report st f = .ok st1 → parse_count_report st1 f = .ok st2 →
      st2.data = st1.data ∧ st2.general = st1.general ∧
      st2.warnings = st1.warnings) := by
  constructor
  · intro f pr1 pr2 h1 h2
    cases hd : parse_stat_file f.lines with
    | error e => simp [parse_stat_files, List.foldlM, bind, hd] at h1
    | ok d =>
      simp only [parse_stat_files, List.foldlM, bind, hd, ok_bind, pure_ok] at h1 h2
      cases h1
      cases h2
      simp [dinsert_dinsert_same]
  · intro st f st1 st2 h1 h2
    obtain ⟨ex, hex, rfl⟩ := (parse_count_report_ok_iff st f st1).mp h1
    obtain ⟨ex2, hex2, rfl⟩ := (parse_count_report_ok_iff _ f st2).mp h2
    rw [hex] at hex2
    cases hex2
    have hrec : (dataRecordOf (store_count st f ex).generalHeaders
        (store_count st f ex).dataHeaders ex).1 =
        (dataRecordOf st.generalHeaders st.dataHeaders ex).1 :=
      dataRecordOf_fst_indep _ _ _ _ _
    have hgen : (generalRecordOf (store_count st f ex).generalHeaders ex).1 =
        (generalRecordOf st.generalHeaders ex).1 :=
      generalRecordOf_fst_indep _ _ _
    by_cases hemp : (dataRecordOf st.generalHeaders st.dataHeaders ex).1.isEmpty
    · refine ⟨?_, ?_, ?_⟩
      · rw [store_count_data, hrec, if_pos hemp]
      · rw [store_count_general, hrec, if_pos hemp]
      · rw [store_count_warnings, hrec, if_pos hemp]
    · refine ⟨?_, ?_, ?_⟩
      · rw [store_count_data, hrec, if_neg hemp, store_count_data, if_neg hemp,
          dinsert_dinsert_same]
      · rw [store_count_general, hrec, if_neg hemp, hgen, store_count_general,
          if_neg hemp, dinsert_dinsert_same]
      · rw [store_count_warnings, hrec, if_neg hemp, store_count_warnings,
          if_neg hemp]
        by_cases hw : (warningsOf ex).isEmpty
        · rw [if_pos hw, if_pos hw]
        · rw [if_neg hw, if_neg hw, dinsert_dinsert_same]

/-- Witness for C7 at concrete inputs: `hF1` parsed once and twice, and
`sampleFile` parsed twice. -/
theorem parse_idempotent_witness :
    (∃ pr1 pr2, parse_stat_files [hF1] = .ok pr1 ∧
      parse_stat_files [hF1, hF1] = .ok pr2 ∧ pr2.1 = pr1.1) ∧
    (crSt2.data = crSt1.data ∧ crSt2.general = crSt1.general ∧
      crSt2.warnings = crSt1.warnings) := by
  constructor
  · exact ⟨_, _, rfl, rfl, parse_idempotent.1 hF1 _ _ rfl rfl⟩
  · exact parse_idempotent.2 initCRState sampleFile crSt1 crSt2 rfl rfl

/-! ## Series reshaping (C8) -/

/-- **C8.**  For a series object with `x` and `y` arrays of equal
length, `transform_data` yields the ordered pairs `(x[i], y[i])` in
index order. -/
theorem transform_data_pairs (xs ys : List Json) (h : xs.length = ys.length) :
    ∃ ps, transform_data (.obj [("x", .arr xs), ("y", .arr ys)]) = .ok ps ∧
      ps.length = xs.length ∧
      ∀ (i : ℕ) (x y : Json), xs.get? i = some x → ys.get? i = some y →
        ps.get? i = some (x, y) := by
  refine ⟨xs.zip ys, rfl, ?_, ?_⟩
  · rw [List.length_zip, h, Nat.min_self]
  · intro i x y hx hy
    exact get?_zip_eq xs ys i x y hx hy

/-- Witness for C8 at `x = [1,2,3]`, `y = [10,20,30]` (the pairs are
`(1,10), (2,20), (3,30)`). -/
theorem transform_data_pairs_witness :
    ∃ ps, transform_data (.obj [("x", .arr [.int 1, .int 2, .int 3]),
                                ("y", .arr [.int 10, .int 20, .int 30])]) = .ok ps ∧
      ps.length = [Json.int 1, .int 2, .int 3].length ∧
      ∀ (i : ℕ) (x y : Json),
        [Json.int 1, .int 2, .int 3].get? i = some x →
        [Json.int 10, .int 20, .int 30].get? i = some y →
        ps.get? i = some (x, y) :=
  transform_data_pairs [.int 1, .int 2, .int 3] [.int 10, .int 20, .int 30] rfl

/-! ## The beeswarm helper (C9, C10) -/

/-- **C9.**  For every input, `plot` of `beeswarm.py` raises
`NameError`: its body evaluates `make_beeswarm_plot(dt)`, but no such
name is defined or imported in the module (the helper is named
`make_plot`), so the documented HTML string is never returned. -/
theorem beeswarm_plot_raises (data : List (Dict (Dict Json)))
    (headers : List (Dict BSHeader)) (pconfig : Dict Json) :
    beeswarm_plot data headers pconfig = .error (.nameError "make_beeswarm_plot") := by
  unfold beeswarm_plot
  rw [if_neg (by decide)]

/-- **C10.**  The structure built by `make_plot` keeps its three arrays
parallel: categories, datasets and samples have the same length, and the
dataset and sample-name lists at each index have the same length (a
sample lacking the metric key contributes to neither). -/
theorem make_plot_arrays_parallel (dt : DataTable) (p : BeeswarmPlot)
    (h : make_plot_arrays dt = .ok p) :
    p.categories.length = p.datasets.length ∧
    p.datasets.length = p.samples.length ∧
    ∀ (i : ℕ) (di : List Json) (si : List String),
      p.datasets.get? i = some di → p.samples.get? i = some si →
      di.length = si.length := by
  have hP : bsInv p := by
    refine foldlM_except_invariant bsInv _ ?_ dt.headers.enum
      { categories := [], datasets := [], samples := [] } p ⟨rfl, List.Forall₂.nil⟩ h
    intro b a b' hPb heq
    exact foldlM_except_invariant bsInv (bsStep dt.data a.1)
      (fun q kh q' hq hstep => bsStep_inv dt.data a.1 q kh q' hq hstep)
      a.2 b b' hPb heq
  exact ⟨hP.1, hP.2.length_eq,
    fun i di si hdi hsi => forall₂_get? hP.2 i di si hdi hsi⟩

/-- Witness for C10 at the concrete datatable `bsDT` (two samples, one
of which lacks the metric). -/
theorem make_plot_arrays_parallel_witness :
    ∃ p, make_plot_arrays bsDT = .ok p ∧
      (p.categories.length = p.datasets.length ∧
       p.datasets.length = p.samples.length ∧
       ∀ (i : ℕ) (di : List Json) (si : List String),
         p.datasets.get? i = some di → p.samples.get? i = some si →
         di.length = si.length) := by
  refine ⟨_, rfl, make_plot_arrays_parallel bsDT _ rfl⟩

end MultiQC
